import Mathlib

/-!
Shallow embedding of the credit-ledger and instance-provisioning core of the
Cosmica dashboard (database.js, routes/dashboard.js, pterodactyl.js).

Monetary amounts are SQLite REAL columns; they are modelled as exact rationals
(`Rat`), matching the spec's requirement of exact decimal comparisons.  SQLite
INTEGER columns are modelled as `Int`, ids as `Nat`, DATETIME values as integer
timestamps (`Int`, compared with a `now` parameter).  Each `await` point of the
route handlers is one atomic step against the store; the interleaving machines
below expose exactly those step boundaries.
-/

namespace Cosmica

/-- Row of the `users` table (the columns the core reads). -/
structure User where
  id : Nat
  credits : Rat
  pterodactyl_id : Option Nat
deriving Repr, DecidableEq

/-- Row of the `gift_cards` table. -/
structure GiftCard where
  id : Nat
  code : String
  credits : Rat
  max_uses : Int
  uses : Int
  per_user_limit : Int
  enabled : Bool
  expires_at : Option Int
deriving Repr, DecidableEq

/-- Row of the `gift_card_redemptions` table. -/
structure Redemption where
  user_id : Nat
  gift_card_id : Nat
  credits_received : Rat
deriving Repr, DecidableEq

/-- Row of the `server_plans` table (the columns the purchase path reads).
`io_weight` is the `io` column. -/
structure Plan where
  id : Nat
  price : Rat
  cpu : Int
  ram : Int
  disk : Int
  swap : Int
  io_weight : Int
  databases : Int
  backups : Int
  allocations : Int
  egg_id : Nat
  location_ids : String
  docker_image : Option String
  startup_command : Option String
  environment_variables : Option String
  user_limit : Int
  stock_limit : Int
  stock_used : Int
  enabled : Bool
deriving Repr, DecidableEq

/-- Row of the `user_servers` table (the columns the purchase path writes). -/
structure UserServer where
  user_id : Nat
  plan_id : Nat
  pterodactyl_server_id : Nat
  server_name : String
  server_identifier : String
  status : String
deriving Repr, DecidableEq

/-- The persistent store owned by the core (the five tables the claims touch). -/
structure DB where
  users : List User
  giftCards : List GiftCard
  redemptions : List Redemption
  plans : List Plan
  userServers : List UserServer
deriving Repr, DecidableEq

/-- `SELECT * FROM users WHERE id = ?` (Database.getUserById). -/
def getUserById (db : DB) (id : Nat) : Option User :=
  db.users.find? (fun u => u.id == id)

/-- `SELECT * FROM gift_cards WHERE code = ?` (Database.getGiftCard). -/
def getGiftCard (db : DB) (code : String) : Option GiftCard :=
  db.giftCards.find? (fun c => c.code == code)

/-- `SELECT COUNT(*) FROM gift_card_redemptions WHERE user_id = ? AND gift_card_id = ?`
(Database.getUserRedemptions). -/
def getUserRedemptions (db : DB) (userId : Nat) (giftCardId : Nat) : Nat :=
  (db.redemptions.filter
    (fun r => r.user_id == userId && r.gift_card_id == giftCardId)).length

/-- `UPDATE users SET credits = credits + ? WHERE id = ?` (Database.updateUserCredits).
The delta is signed: redemption passes `giftCard.credits`, purchase passes `-plan.price`. -/
def updateUserCredits (db : DB) (id : Nat) (credits : Rat) : DB :=
  let users := db.users.map fun u =>
    if u.id == id then { u with credits := u.credits + credits } else u
  { db with users := users }

/-- `UPDATE gift_cards SET uses = uses + 1 WHERE id = ?` (Database.incrementGiftCardUses).
Note: the update is unconditional; there is no `AND uses < max_uses` guard. -/
def incrementGiftCardUses (db : DB) (id : Nat) : DB :=
  let cards := db.giftCards.map fun c =>
    if c.id == id then { c with uses := c.uses + 1 } else c
  { db with giftCards := cards }

/-- `INSERT INTO gift_card_redemptions (user_id, gift_card_id, credits_received)`
(Database.redeemGiftCard). -/
def redeemGiftCard (db : DB) (userId : Nat) (giftCardId : Nat) (credits : Rat) : DB :=
  { db with redemptions := db.redemptions ++ [⟨userId, giftCardId, credits⟩] }

/-- `SELECT * FROM server_plans WHERE id = ?` (Database.getPlanById). -/
def getPlanById (db : DB) (id : Nat) : Option Plan :=
  db.plans.find? (fun p => p.id == id)

/-- `SELECT COUNT(*) FROM user_servers WHERE user_id = ? AND plan_id = ? AND status = "active"`
(Database.getUserServerCount). -/
def getUserServerCount (db : DB) (userId : Nat) (planId : Nat) : Nat :=
  (db.userServers.filter
    (fun s => s.user_id == userId && s.plan_id == planId && s.status == "active")).length

/-- `UPDATE server_plans SET stock_used = stock_used + 1 WHERE id = ?`
(Database.incrementPlanStock).  Unconditional: no `AND stock_used < stock_limit` guard. -/
def incrementPlanStock (db : DB) (id : Nat) : DB :=
  let plans := db.plans.map fun p =>
    if p.id == id then { p with stock_used := p.stock_used + 1 } else p
  { db with plans := plans }

/-- `INSERT INTO user_servers (...)` (Database.createUserServer). -/
def createUserServer (db : DB) (s : UserServer) : DB :=
  { db with userServers := db.userServers ++ [s] }

/-! ## Redemption orchestrator (`router.post('/redeem')` in routes/dashboard.js) -/

/-- Outcome of a redemption request; constructors in source order of the handler's
returns, with the user-visible message recorded by `redeemErrorMessage`. -/
inductive RedeemOutcome where
  | notLoggedIn
  | invalidCode
  | cardDisabled
  | cardExpired
  | usageLimitReached
  | perUserLimitReached
  | success (amount : Rat)
deriving Repr, DecidableEq

/-- JavaScript `toUpperCase` on one character, restricted to ASCII (gift-card
codes are ASCII): `a`-`z` map to `A`-`Z`, everything else - whitespace
included - is left as is. -/
def jsToUpperChar (c : Char) : Char :=
  if 97 ≤ c.toNat ∧ c.toNat ≤ 122 then Char.ofNat (c.toNat - 32) else c

/-- JavaScript `String.prototype.toUpperCase` (ASCII fragment). -/
def jsToUpperCase (s : String) : String :=
  ⟨s.data.map jsToUpperChar⟩

/-- The handler looks the code up as `code.toUpperCase()` - upper-casing only,
no trimming. -/
def normalizeCode (code : String) : String :=
  jsToUpperCase code

/-- `giftCard.expires_at && new Date(giftCard.expires_at) < new Date()`. -/
def isExpired (c : GiftCard) (now : Int) : Bool :=
  match c.expires_at with
  | some e => e < now
  | none => false

/-- The distinct error string rendered for each failing redemption outcome
(the literal strings of the handler). -/
def redeemErrorMessage : RedeemOutcome → Option String
  | RedeemOutcome.invalidCode => some "Invalid gift card code"
  | RedeemOutcome.cardDisabled => some "This gift card is no longer active"
  | RedeemOutcome.cardExpired => some "This gift card has expired"
  | RedeemOutcome.usageLimitReached => some "This gift card has reached its usage limit"
  | RedeemOutcome.perUserLimitReached =>
      some "You have already redeemed this gift card the maximum number of times"
  | _ => none

/-- The three commit writes of the success branch, in source order:
credit the balance, bump `uses`, append the redemption record. -/
def redeemCommit (db : DB) (userId : Nat) (card : GiftCard) : DB :=
  redeemGiftCard (incrementGiftCardUses (updateUserCredits db userId card.credits) card.id)
    userId card.id card.credits

/-- The commit after `k` of its three sequential awaited writes have succeeded,
modelling a storage failure that rejects the `(k+1)`-th write (there is no
enclosing transaction, so the first `k` writes remain durable). -/
def redeemCommitUpTo (db : DB) (userId : Nat) (card : GiftCard) : Nat → DB
  | 0 => db
  | 1 => updateUserCredits db userId card.credits
  | 2 => incrementGiftCardUses (updateUserCredits db userId card.credits) card.id
  | _ => redeemCommit db userId card

/-- The whole `/redeem` POST handler as one atomic request (no interleaving). -/
def redeem (db : DB) (userId : Nat) (code : String) (now : Int) : RedeemOutcome × DB :=
  match getUserById db userId with
  | none => (RedeemOutcome.notLoggedIn, db)
  | some user =>
    match getGiftCard db (normalizeCode code) with
    | none => (RedeemOutcome.invalidCode, db)
    | some giftCard =>
      if !giftCard.enabled then (RedeemOutcome.cardDisabled, db)
      else if isExpired giftCard now then (RedeemOutcome.cardExpired, db)
      else if giftCard.max_uses ≤ giftCard.uses then (RedeemOutcome.usageLimitReached, db)
      else if giftCard.per_user_limit ≤ (getUserRedemptions db user.id giftCard.id : Int) then
        (RedeemOutcome.perUserLimitReached, db)
      else
        (RedeemOutcome.success giftCard.credits, redeemCommit db user.id giftCard)

/-- Fold a list of redemption requests (userId, code) through the store, each
request run to completion before the next starts. -/
def runRedeemsSeq (now : Int) (reqs : List (Nat × String)) (db : DB) : DB :=
  reqs.foldl (fun db r => (redeem db r.1 r.2 now).2) db

/-! ## Purchase orchestrator (`router.post('/instances/purchase')` in routes/dashboard.js) -/

/-- Result of one Provisioning Gateway call: the `success`/`error` shape of
pterodactyl.js (`createUser` returns the new account id; `createServer` returns
`data.id` and `data.identifier`). -/
inductive ProvisionResult where
  | ok (id : Nat) (identifier : String)
  | fail (err : String)
deriving Repr, DecidableEq

/-- The predetermined responses of the external panel for one request (the
orchestrator makes at most one call of each kind per request). -/
structure Gateway where
  createUserResult : ProvisionResult
  createServerResult : ProvisionResult
deriving Repr, DecidableEq

/-- A Provisioning Gateway call made by the purchase handler, with the parts of
its payload the claims inspect (`createServerCall` records the requested name,
the panel account id, and the environment-variable map sent). -/
inductive GatewayCall where
  | createUserCall
  | createServerCall (name : String) (accountId : Nat) (environment : List (String × String))
deriving Repr, DecidableEq

def GatewayCall.isCreateServer : GatewayCall → Bool
  | GatewayCall.createServerCall _ _ _ => true
  | _ => false

/-- Outcome of a purchase request; each constructor corresponds to one distinct
redirect of the handler.  `accountLinkError` is the catch-all redirect reached
because `db.linkPterodactylUser` is not defined on `Database` (database.js only
defines `updatePterodactylId`), so the call after a successful panel-account
creation throws and is caught by the handler's try/catch. -/
inductive PurchaseOutcome where
  | missingFields
  | planUnavailable
  | insufficientCredits
  | userLimitReached
  | outOfStock
  | provisioningAccountFailed
  | accountLinkError
  | provisioningInstanceFailed (err : String)
  | success (serverId : Nat) (identifier : String)
deriving Repr, DecidableEq

structure PurchaseResult where
  outcome : PurchaseOutcome
  db : DB
  calls : List GatewayCall
deriving Repr, DecidableEq

/-- `let environment = {}; if (plan.environment_variables) try { environment =
JSON.parse(...) } catch {}` - an absent, empty, or unparsable field yields the
empty map.  `parseJson` abstracts `JSON.parse` restricted to string-to-string
objects (`none` models a parse exception). -/
def parseEnvironment (parseJson : String → Option (List (String × String)))
    (ev : Option String) : List (String × String) :=
  match ev with
  | none => []
  | some s =>
    if s = "" then []
    else match parseJson s with
      | some m => m
      | none => []

/-- The whole `/instances/purchase` POST handler as one atomic request.
`plan_id = none` models a missing `plan_id` form field. -/
def purchase (parseJson : String → Option (List (String × String))) (g : Gateway)
    (db : DB) (userId : Nat) (plan_id : Option Nat) (server_name : String) : PurchaseResult :=
  match getUserById db userId, plan_id with
  | none, _ => ⟨PurchaseOutcome.missingFields, db, []⟩
  | some _, none => ⟨PurchaseOutcome.missingFields, db, []⟩
  | some user, some pid =>
    if server_name = "" then ⟨PurchaseOutcome.missingFields, db, []⟩
    else match getPlanById db pid with
    | none => ⟨PurchaseOutcome.planUnavailable, db, []⟩
    | some plan =>
      if !plan.enabled then ⟨PurchaseOutcome.planUnavailable, db, []⟩
      else if user.credits < plan.price then ⟨PurchaseOutcome.insufficientCredits, db, []⟩
      else if 0 < plan.user_limit ∧
          plan.user_limit ≤ (getUserServerCount db user.id pid : Int) then
        ⟨PurchaseOutcome.userLimitReached, db, []⟩
      else if 0 < plan.stock_limit ∧ plan.stock_limit ≤ plan.stock_used then
        ⟨PurchaseOutcome.outOfStock, db, []⟩
      else match user.pterodactyl_id with
        | none =>
          match g.createUserResult with
          | ProvisionResult.fail _ =>
            ⟨PurchaseOutcome.provisioningAccountFailed, db, [GatewayCall.createUserCall]⟩
          | ProvisionResult.ok _ _ =>
            ⟨PurchaseOutcome.accountLinkError, db, [GatewayCall.createUserCall]⟩
        | some accountId =>
          let environment := parseEnvironment parseJson plan.environment_variables
          match g.createServerResult with
          | ProvisionResult.fail e =>
            ⟨PurchaseOutcome.provisioningInstanceFailed e, db,
              [GatewayCall.createServerCall server_name accountId environment]⟩
          | ProvisionResult.ok sid ident =>
            let db1 := updateUserCredits db user.id (-plan.price)
            let db2 := incrementPlanStock db1 pid
            let db3 := createUserServer db2 ⟨user.id, pid, sid, server_name, ident, "active"⟩
            ⟨PurchaseOutcome.success sid ident, db3,
              [GatewayCall.createServerCall server_name accountId environment]⟩

/-- One purchase request: its form fields plus the panel's predetermined answers. -/
structure PReq where
  userId : Nat
  plan_id : Option Nat
  server_name : String
  gateway : Gateway
deriving Repr, DecidableEq

/-- Fold purchase requests through the store sequentially. -/
def runPurchasesSeq (parseJson : String → Option (List (String × String)))
    (reqs : List PReq) (db : DB) : DB :=
  reqs.foldl (fun db r => (purchase parseJson r.gateway db r.userId r.plan_id r.server_name).db) db

/-! ## Interleaved requests

Each `await` of a handler is one atomic store operation; between two awaits of
one request, awaits of other requests may run.  A session's program counter
marks the next awaited store operation; the synchronous checks between two
awaits run inside the step that completes the first of them. -/

/-- Program counter of an in-flight `/redeem` request.  `countRedemptions`
carries the card row snapshot read by `getGiftCard` (the enabled/expiry/max-uses
checks on it are synchronous and run inside the `start` step). -/
inductive RPhase where
  | start
  | countRedemptions (card : GiftCard)
  | doCredit (card : GiftCard)
  | doIncrement (card : GiftCard)
  | doRecord (card : GiftCard)
  | done (outcome : RedeemOutcome)
deriving Repr, DecidableEq

structure RSession where
  userId : Nat
  code : String
  phase : RPhase
deriving Repr, DecidableEq

/-- Run one awaited store operation of a `/redeem` request. -/
def stepRedeemSession (now : Int) (db : DB) (s : RSession) : DB × RSession :=
  match s.phase with
  | RPhase.start =>
    match getUserById db s.userId with
    | none => (db, { s with phase := RPhase.done RedeemOutcome.notLoggedIn })
    | some _ =>
      match getGiftCard db (normalizeCode s.code) with
      | none => (db, { s with phase := RPhase.done RedeemOutcome.invalidCode })
      | some card =>
        if !card.enabled then (db, { s with phase := RPhase.done RedeemOutcome.cardDisabled })
        else if isExpired card now then
          (db, { s with phase := RPhase.done RedeemOutcome.cardExpired })
        else if card.max_uses ≤ card.uses then
          (db, { s with phase := RPhase.done RedeemOutcome.usageLimitReached })
        else (db, { s with phase := RPhase.countRedemptions card })
  | RPhase.countRedemptions card =>
    if card.per_user_limit ≤ (getUserRedemptions db s.userId card.id : Int) then
      (db, { s with phase := RPhase.done RedeemOutcome.perUserLimitReached })
    else (db, { s with phase := RPhase.doCredit card })
  | RPhase.doCredit card =>
    (updateUserCredits db s.userId card.credits, { s with phase := RPhase.doIncrement card })
  | RPhase.doIncrement card =>
    (incrementGiftCardUses db card.id, { s with phase := RPhase.doRecord card })
  | RPhase.doRecord card =>
    (redeemGiftCard db s.userId card.id card.credits,
      { s with phase := RPhase.done (RedeemOutcome.success card.credits) })
  | RPhase.done _ => (db, s)

/-- Run a schedule: each entry picks the session whose next awaited operation
executes (out-of-range entries are skipped). -/
def runRedeemSched (now : Int) (sched : List Nat) (db : DB) (ss : List RSession) :
    DB × List RSession :=
  sched.foldl
    (fun acc i =>
      match acc.2[i]? with
      | none => acc
      | some s =>
        let r := stepRedeemSession now acc.1 s
        (r.1, acc.2.set i r.2))
    (db, ss)

/-- Program counter of an in-flight `/instances/purchase` request.  `readPlan`
carries the user row snapshot; the credit/stock checks on the plan snapshot are
synchronous and run inside the step that reads the plan (or, when
`user_limit > 0`, inside the `countServers` step). -/
inductive PPhase where
  | start
  | readPlan (user : User)
  | countServers (user : User) (plan : Plan)
  | provision (user : User) (plan : Plan)
  | debit (user : User) (plan : Plan) (sid : Nat) (ident : String)
  | bumpStock (user : User) (plan : Plan) (sid : Nat) (ident : String)
  | record (user : User) (plan : Plan) (sid : Nat) (ident : String)
  | done (outcome : PurchaseOutcome)
deriving Repr, DecidableEq

structure PSession where
  userId : Nat
  plan_id : Option Nat
  server_name : String
  gateway : Gateway
  phase : PPhase
deriving Repr, DecidableEq

/-- The synchronous stock check, then the gateway instance-creation step. -/
def purchaseStockThenProvision (db : DB) (s : PSession) (user : User) (plan : Plan) :
    DB × PSession :=
  if 0 < plan.stock_limit ∧ plan.stock_limit ≤ plan.stock_used then
    (db, { s with phase := PPhase.done PurchaseOutcome.outOfStock })
  else (db, { s with phase := PPhase.provision user plan })

/-- Run one awaited operation (store or gateway) of a purchase request. -/
def stepPurchaseSession (db : DB) (s : PSession) : DB × PSession :=
  match s.phase with
  | PPhase.start =>
    match getUserById db s.userId, s.plan_id with
    | none, _ => (db, { s with phase := PPhase.done PurchaseOutcome.missingFields })
    | some _, none => (db, { s with phase := PPhase.done PurchaseOutcome.missingFields })
    | some user, some _ =>
      if s.server_name = "" then
        (db, { s with phase := PPhase.done PurchaseOutcome.missingFields })
      else (db, { s with phase := PPhase.readPlan user })
  | PPhase.readPlan user =>
    match s.plan_id.bind (getPlanById db) with
    | none => (db, { s with phase := PPhase.done PurchaseOutcome.planUnavailable })
    | some plan =>
      if !plan.enabled then
        (db, { s with phase := PPhase.done PurchaseOutcome.planUnavailable })
      else if user.credits < plan.price then
        (db, { s with phase := PPhase.done PurchaseOutcome.insufficientCredits })
      else if 0 < plan.user_limit then
        (db, { s with phase := PPhase.countServers user plan })
      else purchaseStockThenProvision db s user plan
  | PPhase.countServers user plan =>
    match s.plan_id with
    | none => (db, { s with phase := PPhase.done PurchaseOutcome.missingFields })
    | some pid =>
      if plan.user_limit ≤ (getUserServerCount db user.id pid : Int) then
        (db, { s with phase := PPhase.done PurchaseOutcome.userLimitReached })
      else purchaseStockThenProvision db s user plan
  | PPhase.provision user plan =>
    match user.pterodactyl_id with
    | none =>
      match s.gateway.createUserResult with
      | ProvisionResult.fail _ =>
        (db, { s with phase := PPhase.done PurchaseOutcome.provisioningAccountFailed })
      | ProvisionResult.ok _ _ =>
        (db, { s with phase := PPhase.done PurchaseOutcome.accountLinkError })
    | some _ =>
      match s.gateway.createServerResult with
      | ProvisionResult.fail e =>
        (db, { s with phase := PPhase.done (PurchaseOutcome.provisioningInstanceFailed e) })
      | ProvisionResult.ok sid ident =>
        (db, { s with phase := PPhase.debit user plan sid ident })
  | PPhase.debit user plan sid ident =>
    (updateUserCredits db user.id (-plan.price),
      { s with phase := PPhase.bumpStock user plan sid ident })
  | PPhase.bumpStock user plan sid ident =>
    match s.plan_id with
    | none => (db, { s with phase := PPhase.done PurchaseOutcome.missingFields })
    | some pid =>
      (incrementPlanStock db pid, { s with phase := PPhase.record user plan sid ident })
  | PPhase.record user plan sid ident =>
    match s.plan_id with
    | none => (db, { s with phase := PPhase.done PurchaseOutcome.missingFields })
    | some pid =>
      (createUserServer db ⟨user.id, pid, sid, s.server_name, ident, "active"⟩,
        { s with phase := PPhase.done (PurchaseOutcome.success sid ident) })
  | PPhase.done _ => (db, s)

/-- Run a schedule of interleaved purchase requests. -/
def runPurchaseSched (sched : List Nat) (db : DB) (ss : List PSession) :
    DB × List PSession :=
  sched.foldl
    (fun acc i =>
      match acc.2[i]? with
      | none => acc
      | some s =>
        let r := stepPurchaseSession acc.1 s
        (r.1, acc.2.set i r.2))
    (db, ss)

/-! ## Provisioning Gateway adapter cache (pterodactyl.js) -/

/-- A server row as mapped by `getUserServers` (the fields the claims touch). -/
structure PServer where
  id : Nat
  identifier : String
  name : String
deriving Repr, DecidableEq

/-- `this.cacheTTL = 60000` (milliseconds). -/
def cacheTTL : Int := 60000

/-- `this.cache`: keys to cached data plus the timestamp it was stored at. -/
structure PteroCache where
  entries : List (String × List PServer × Int)
deriving Repr, DecidableEq

/-- `_getCache`: return the entry's data when it is younger than the TTL. -/
def PteroCache.lookup (st : PteroCache) (key : String) (now : Int) : Option (List PServer) :=
  match st.entries.find? (fun e => e.1 == key) with
  | some e => if now - e.2.2 < cacheTTL then some e.2.1 else none
  | none => none

/-- `_setCache`: store data under the key with the current timestamp. -/
def PteroCache.store (st : PteroCache) (key : String) (data : List PServer) (now : Int) :
    PteroCache :=
  ⟨(key, data, now) :: st.entries.filter (fun e => !(e.1 == key))⟩

/-- `PterodactylAPI.getUserServers(userId)`: consult the cache first and serve a
fresh entry without any remote call; otherwise fetch remotely (`remote` is the
panel's answer) and cache a successful result.  The returned flag records
whether a remote fetch happened.  Note the source function takes no second
parameter: there is no bypass argument. -/
def getUserServers (st : PteroCache) (userId : Nat) (now : Int)
    (remote : Except String (List PServer)) :
    (Except String (List PServer)) × PteroCache × Bool :=
  let cacheKey := "user_servers_" ++ toString userId
  match st.lookup cacheKey now with
  | some cached => (Except.ok cached, st, false)
  | none =>
    match remote with
    | Except.ok servers => (Except.ok servers, st.store cacheKey servers now, true)
    | Except.error e => (Except.error e, st, true)

/-- The `/api/sync-servers` call site: `pterodactyl.getUserServers(user.pterodactyl_id, true)`.
JavaScript silently drops the extra `true` argument, since `getUserServers` is
declared with a single parameter - the bypass flag has no effect. -/
def getUserServersWithBypassArg (st : PteroCache) (userId : Nat) (bypassCache : Bool)
    (now : Int) (remote : Except String (List PServer)) :
    (Except String (List PServer)) × PteroCache × Bool :=
  getUserServers st userId now remote

/-! ## Concrete stores and sessions used by the counterexamples and witnesses -/

/-- A card at its last remaining use: credits 10, `max_uses = 1`, `uses = 0`,
`per_user_limit = 1`, enabled, no expiry. -/
def cexCard : GiftCard := ⟨1, "SAVE10", 10, 1, 0, 1, true, none⟩

/-- Two users with balance 0 and the card above. -/
def cexRedeemDb : DB := ⟨[⟨1, 0, none⟩, ⟨2, 0, none⟩], [cexCard], [], [], []⟩

/-- Two simultaneous redemption requests for the same card from different users. -/
def cexRedeemSessions : List RSession :=
  [⟨1, "SAVE10", RPhase.start⟩, ⟨2, "SAVE10", RPhase.start⟩]

/-- Both requests validate against `uses = 0` before either commits. -/
def cexRedeemSched : List Nat := [0, 1, 0, 1, 0, 0, 0, 1, 1, 1]

/-- A plan at its last unit of stock: price 5, `stock_limit = 1`, `stock_used = 0`,
no per-user limit, enabled, no template environment. -/
def cexPlan : Plan :=
  ⟨1, 5, 100, 1024, 5120, 0, 500, 0, 0, 1, 1, "1", none, none, none, 0, 1, 0, true⟩

/-- Two users with balance 20, both already linked to panel accounts. -/
def cexPurchaseDb : DB := ⟨[⟨1, 20, some 100⟩, ⟨2, 20, some 200⟩], [], [], [cexPlan], []⟩

/-- Two simultaneous purchase requests against the plan above; the panel answers
both instance creations successfully. -/
def cexPurchaseSessions : List PSession :=
  [⟨1, some 1, "s1", ⟨ProvisionResult.fail "unused", ProvisionResult.ok 11 "abc"⟩, PPhase.start⟩,
   ⟨2, some 1, "s2", ⟨ProvisionResult.fail "unused", ProvisionResult.ok 12 "defg"⟩, PPhase.start⟩]

/-- Both requests pass the stock check against `stock_used = 0` before either
increments the counter. -/
def cexPurchaseSched : List Nat := [0, 1, 0, 1, 0, 0, 0, 0, 1, 1, 1, 1]

/-- A gateway cache holding a fresh entry for panel account 5 (stored at time
1000, queried at time 2000, well inside the 60000 ms TTL). -/
def cexCache : PteroCache := ⟨[("user_servers_5", [⟨1, "aaa", "Server A"⟩], 1000)]⟩

/-- Scenario C: one user with balance 3, the plan above priced 5. -/
def cexPoorDb : DB := ⟨[⟨1, 3, some 100⟩], [], [], [cexPlan], []⟩

/-- A plan whose stored environment-variables field is present but not JSON. -/
def cexEnvPlan : Plan :=
  ⟨2, 5, 100, 1024, 5120, 0, 500, 0, 0, 1, 1, "1", none, none, some "not json", 0, 0, 0, true⟩

/-- A linked user with balance 20 and the malformed-environment plan. -/
def cexEnvDb : DB := ⟨[⟨1, 20, some 100⟩], [], [], [cexEnvPlan], []⟩

end Cosmica

namespace Cosmica

/-! ## Theorems -/

/-- C1 counterexample: with the card `SAVE10` at `max_uses = 1, uses = 0`, the
interleaving in which both requests validate before either commits drives the
card to `uses = 2 > max_uses = 1` and both requests report success - the
commit-time increment is unconditional, so the claimed invariant fails on a
reachable state. -/
theorem c1_counterexample :
    (runRedeemSched 0 cexRedeemSched cexRedeemDb cexRedeemSessions).1.giftCards.map
        GiftCard.uses = [2] ∧
    cexRedeemDb.giftCards.map GiftCard.max_uses = [1] ∧
    (∃ c ∈ (runRedeemSched 0 cexRedeemSched cexRedeemDb cexRedeemSessions).1.giftCards,
      ¬(c.uses ≤ c.max_uses)) ∧
    (runRedeemSched 0 cexRedeemSched cexRedeemDb cexRedeemSessions).2.map RSession.phase =
      [RPhase.done (RedeemOutcome.success 10), RPhase.done (RedeemOutcome.success 10)] := by
  decide

/-- C3 counterexample: with the plan at `stock_limit = 1, stock_used = 0`, the
interleaving in which both purchases pass the stock check before either
increments drives the plan to `stock_used = 2 > stock_limit = 1` and both
purchases succeed. -/
theorem c3_counterexample :
    (runPurchaseSched cexPurchaseSched cexPurchaseDb cexPurchaseSessions).1.plans.map
        Plan.stock_used = [2] ∧
    cexPurchaseDb.plans.map Plan.stock_limit = [1] ∧
    (∃ p ∈ (runPurchaseSched cexPurchaseSched cexPurchaseDb cexPurchaseSessions).1.plans,
      0 < p.stock_limit ∧ ¬(p.stock_used ≤ p.stock_limit)) ∧
    (runPurchaseSched cexPurchaseSched cexPurchaseDb cexPurchaseSessions).2.map PSession.phase =
      [PPhase.done (PurchaseOutcome.success 11 "abc"),
       PPhase.done (PurchaseOutcome.success 12 "defg")] := by
  decide

/-- C2 counterexample: the success branch commits through three separate
sequential writes (`redeemCommit`); a storage failure rejecting the second
write leaves the state after only the first - the balance is credited but
`uses` and the redemption ledger are untouched, a state that is neither "all
three writes" nor "none of them". -/
theorem c2_counterexample :
    redeem cexRedeemDb 1 "SAVE10" 0 =
      (RedeemOutcome.success 10, redeemCommit cexRedeemDb 1 cexCard) ∧
    (redeemCommitUpTo cexRedeemDb 1 cexCard 1).users.map User.credits = [10, 0] ∧
    cexRedeemDb.users.map User.credits = [0, 0] ∧
    (redeemCommitUpTo cexRedeemDb 1 cexCard 1).giftCards.map GiftCard.uses = [0] ∧
    (redeemCommit cexRedeemDb 1 cexCard).giftCards.map GiftCard.uses = [1] ∧
    (redeemCommitUpTo cexRedeemDb 1 cexCard 1).redemptions = [] ∧
    (redeemCommit cexRedeemDb 1 cexCard).redemptions = [⟨1, 1, 10⟩] := by
  refine ⟨rfl, ?_, rfl, rfl, rfl, rfl, rfl⟩
  simp [redeemCommitUpTo, updateUserCredits, cexRedeemDb, cexCard]

/-- C8 counterexample: the stored card `SAVE10` exists, yet redeeming with the
code `" save10 "` - which differs from it only in case and surrounding
whitespace - fails with `invalidCode`, because the handler upper-cases but does
not trim: the lookup key is `" SAVE10 "`. -/
theorem c8_counterexample :
    normalizeCode " save10 " = " SAVE10 " ∧
    getGiftCard cexRedeemDb (normalizeCode " save10 ") = none ∧
    getGiftCard cexRedeemDb (normalizeCode "save10") = some cexCard ∧
    redeem cexRedeemDb 1 " save10 " 0 = (RedeemOutcome.invalidCode, cexRedeemDb) := by
  decide

/-- C9: evaluating `getUserServers` at the `/api/sync-servers` call site with a
fresh cache entry: the caller passes `bypassCache = true`, yet the cached list
(`Server A`) is returned, the remote answer (`Server B`) is never fetched
(fetched flag `false`), and the cache is left as is - the source function
declares no bypass parameter, contradicting the route's own "force fresh fetch
bypassing cache" comments. -/
theorem c9_bypass_ignored :
    getUserServersWithBypassArg cexCache 5 true 2000 (Except.ok [⟨2, "bbb", "Server B"⟩]) =
      (Except.ok [⟨1, "aaa", "Server A"⟩], cexCache, false) := by
  rfl

/-! ### Helper lemmas about the store operations -/

theorem getUserById_id {db : DB} {uid : Nat} {u : User}
    (h : getUserById db uid = some u) : u.id = uid := by
  unfold getUserById at h
  simpa using List.find?_some h

theorem getGiftCard_mem {db : DB} {code : String} {c : GiftCard}
    (h : getGiftCard db code = some c) : c ∈ db.giftCards := by
  unfold getGiftCard at h
  exact List.mem_of_find?_eq_some h

theorem getPlanById_id {db : DB} {pid : Nat} {p : Plan}
    (h : getPlanById db pid = some p) : p.id = pid := by
  unfold getPlanById at h
  simpa using List.find?_some h

theorem getPlanById_mem {db : DB} {pid : Nat} {p : Plan}
    (h : getPlanById db pid = some p) : p ∈ db.plans := by
  unfold getPlanById at h
  exact List.mem_of_find?_eq_some h

theorem find?_map_preserving {α : Type} (p : α → Bool) (f : α → α) (l : List α)
    (hp : ∀ a, p (f a) = p a) :
    (l.map f).find? p = (l.find? p).map f := by
  induction l with
  | nil => rfl
  | cons a t ih =>
    cases hpa : p a with
    | true =>
      rw [List.map_cons, List.find?_cons_of_pos _ (by rw [hp a, hpa]),
        List.find?_cons_of_pos _ hpa]
      rfl
    | false =>
      rw [List.map_cons, List.find?_cons_of_neg _ (by rw [hp a]; simp [hpa]),
        List.find?_cons_of_neg _ (by simp [hpa]), ih]

theorem getUserById_updateUserCredits (db : DB) (id : Nat) (delta : Rat) :
    getUserById (updateUserCredits db id delta) id =
      (getUserById db id).map (fun u => { u with credits := u.credits + delta }) := by
  unfold getUserById updateUserCredits
  rw [find?_map_preserving _ _ _ (fun a => by by_cases h : a.id = id <;> simp [h])]
  cases h : db.users.find? (fun u => u.id == id) with
  | none => rfl
  | some u =>
    have hu : u.id = id := by simpa using List.find?_some h
    simp [hu]

theorem getPlanById_incrementPlanStock (db : DB) (pid : Nat) :
    getPlanById (incrementPlanStock db pid) pid =
      (getPlanById db pid).map (fun p => { p with stock_used := p.stock_used + 1 }) := by
  unfold getPlanById incrementPlanStock
  rw [find?_map_preserving _ _ _ (fun a => by by_cases h : a.id = pid <;> simp [h])]
  cases h : db.plans.find? (fun p => p.id == pid) with
  | none => rfl
  | some p =>
    have hp : p.id = pid := by simpa using List.find?_some h
    simp [hp]

/-- C2 amended: the success branch commits through three separate sequential
writes, in the order balance credit, `uses` increment, redemption insert; a
storage failure interrupting the commit after `k` successful writes leaves
exactly the first `k` applied - in particular, after a failure at the second
write the balance is credited while the gift-card table and the redemption
ledger are untouched, and only when all three succeed does the state equal the
full commit. -/
theorem c2_amended (db : DB) (userId : Nat) (card : GiftCard) :
    redeemCommitUpTo db userId card 0 = db ∧
    (redeemCommitUpTo db userId card 1).users =
      (updateUserCredits db userId card.credits).users ∧
    (redeemCommitUpTo db userId card 1).giftCards = db.giftCards ∧
    (redeemCommitUpTo db userId card 1).redemptions = db.redemptions ∧
    (redeemCommitUpTo db userId card 2).users =
      (updateUserCredits db userId card.credits).users ∧
    (redeemCommitUpTo db userId card 2).giftCards =
      (incrementGiftCardUses db card.id).giftCards ∧
    (redeemCommitUpTo db userId card 2).redemptions = db.redemptions ∧
    redeemCommitUpTo db userId card 3 = redeemCommit db userId card := by
  exact ⟨rfl, rfl, rfl, rfl, rfl, rfl, rfl, rfl⟩

/-- C8 amended: the lookup key is the upper-cased, untrimmed input: when no
card's code equals `code.toUpperCase()` the outcome is `invalidCode` with the
store unchanged, and when some card's code equals it (stored codes being
upper case, this covers inputs differing only in letter case) the `invalidCode`
branch is not taken. -/
theorem c8_amended (db : DB) (uid : Nat) (code : String) (now : Int) (user : User)
    (hu : getUserById db uid = some user) :
    (getGiftCard db (normalizeCode code) = none →
      redeem db uid code now = (RedeemOutcome.invalidCode, db)) ∧
    (∀ card, getGiftCard db (normalizeCode code) = some card →
      (redeem db uid code now).1 ≠ RedeemOutcome.invalidCode) := by
  constructor
  · intro h
    simp [redeem, hu, h]
  · intro card h
    simp only [redeem, hu, h]
    split_ifs <;> simp

/-- C6: the redemption validation sequence is short-circuit with first failure
winning, in the order card-exists (`invalidCode`), enabled (`cardDisabled`),
not expired (`cardExpired`), `uses < max_uses` (`usageLimitReached`), per-user
count `< per_user_limit` (`perUserLimitReached`); every non-success outcome
leaves the store unchanged; and the five user-visible failure messages are
pairwise distinct. -/
theorem c6_validation_sequence (db : DB) (uid : Nat) (code : String) (now : Int)
    (user : User) (hu : getUserById db uid = some user) :
    (∀ o db2, redeem db uid code now = (o, db2) →
      (∀ a, o ≠ RedeemOutcome.success a) → db2 = db) ∧
    (getGiftCard db (normalizeCode code) = none →
      redeem db uid code now = (RedeemOutcome.invalidCode, db)) ∧
    (∀ card, getGiftCard db (normalizeCode code) = some card →
      (card.enabled = false →
        redeem db uid code now = (RedeemOutcome.cardDisabled, db)) ∧
      (card.enabled = true → isExpired card now = true →
        redeem db uid code now = (RedeemOutcome.cardExpired, db)) ∧
      (card.enabled = true → isExpired card now = false →
        card.max_uses ≤ card.uses →
        redeem db uid code now = (RedeemOutcome.usageLimitReached, db)) ∧
      (card.enabled = true → isExpired card now = false →
        card.uses < card.max_uses →
        card.per_user_limit ≤ (getUserRedemptions db uid card.id : Int) →
        redeem db uid code now = (RedeemOutcome.perUserLimitReached, db))) ∧
    (∀ o1 o2 : RedeemOutcome, redeemErrorMessage o1 ≠ none →
      redeemErrorMessage o1 = redeemErrorMessage o2 → o1 = o2) := by
  have hid : user.id = uid := getUserById_id hu
  refine ⟨?_, ?_, ?_, ?_⟩
  · intro o db2 hr h
    simp only [redeem, hu] at hr
    rcases hc : getGiftCard db (normalizeCode code) with _ | card <;> simp only [hc] at hr
    · cases hr
      rfl
    · split_ifs at hr
      · cases hr; rfl
      · cases hr; rfl
      · cases hr; rfl
      · cases hr; rfl
      · cases hr
        exact absurd rfl (h card.credits)
  · intro h
    simp [redeem, hu, h]
  · intro card hc
    refine ⟨?_, ?_, ?_, ?_⟩
    · intro h1
      simp [redeem, hu, hc, h1]
    · intro h1 h2
      simp [redeem, hu, hc, h1, h2]
    · intro h1 h2 h3
      simp [redeem, hu, hc, h1, h2, h3]
    · intro h1 h2 h3 h4
      rw [← hid] at h4
      simp [redeem, hu, hc, h1, h2, h3, h4, not_le.mpr h3]
  · intro o1 o2 h1 h2
    cases o1 <;> cases o2 <;> simp_all [redeemErrorMessage]

/-- C6 witness: an unknown code is rejected as `invalidCode` with the store
unchanged. -/
theorem c6_witness :
    redeem cexRedeemDb 1 "NOPE" 0 = (RedeemOutcome.invalidCode, cexRedeemDb) :=
  (c6_validation_sequence cexRedeemDb 1 "NOPE" 0 ⟨1, 0, none⟩ (by decide)).2.1 (by decide)

/-- C7: the purchase validation sequence short-circuits in the order plan
exists-and-enabled (`planUnavailable`), balance &ge; price
(`insufficientCredits`), per-user instance limit (only when `user_limit > 0`,
`userLimitReached`), stock limit (only when `stock_limit > 0`, `outOfStock`);
each failure leaves the store unchanged and, the calls list being empty, is
decided before any Provisioning Gateway call - in particular a balance below
the plan price yields `insufficientCredits` with no provisioning call. -/
theorem c7_validation_order (parseJson : String → Option (List (String × String)))
    (g : Gateway) (db : DB) (uid : Nat) (pid : Nat) (name : String) (user : User)
    (hu : getUserById db uid = some user) (hname : name ≠ "") :
    (getPlanById db pid = none →
      purchase parseJson g db uid (some pid) name =
        ⟨PurchaseOutcome.planUnavailable, db, []⟩) ∧
    (∀ plan, getPlanById db pid = some plan →
      (plan.enabled = false →
        purchase parseJson g db uid (some pid) name =
          ⟨PurchaseOutcome.planUnavailable, db, []⟩) ∧
      (plan.enabled = true → user.credits < plan.price →
        purchase parseJson g db uid (some pid) name =
          ⟨PurchaseOutcome.insufficientCredits, db, []⟩) ∧
      (plan.enabled = true → ¬user.credits < plan.price →
        0 < plan.user_limit →
        plan.user_limit ≤ (getUserServerCount db uid pid : Int) →
        purchase parseJson g db uid (some pid) name =
          ⟨PurchaseOutcome.userLimitReached, db, []⟩) ∧
      (plan.enabled = true → ¬user.credits < plan.price →
        ¬(0 < plan.user_limit ∧
          plan.user_limit ≤ (getUserServerCount db uid pid : Int)) →
        0 < plan.stock_limit → plan.stock_limit ≤ plan.stock_used →
        purchase parseJson g db uid (some pid) name =
          ⟨PurchaseOutcome.outOfStock, db, []⟩)) := by
  have hid : user.id = uid := getUserById_id hu
  constructor
  · intro h
    simp [purchase, hu, h, hname]
  · intro plan hplan
    refine ⟨?_, ?_, ?_, ?_⟩
    · intro h1
      simp [purchase, hu, hplan, hname, h1]
    · intro h1 h2
      simp [purchase, hu, hplan, hname, h1, h2]
    · intro h1 h2 h3 h4
      rw [← hid] at h4
      simp [purchase, hu, hplan, hname, h1, h2, h3, h4]
    · intro h1 h2 h3 h4 h5
      rw [← hid] at h3
      simp [purchase, hu, hplan, hname, h1, h2, h3, h4, h5]

/-- C7 witness, scenario C: plan price 5, user balance 3 - the outcome is
`insufficientCredits`, the store is unchanged, and no gateway call was made. -/
theorem c7_witness :
    purchase (fun _ => none) ⟨ProvisionResult.ok 7 "x", ProvisionResult.ok 9 "y"⟩
        cexPoorDb 1 (some 1) "srv" =
      ⟨PurchaseOutcome.insufficientCredits, cexPoorDb, []⟩ :=
  ((c7_validation_order (fun _ => none) ⟨ProvisionResult.ok 7 "x", ProvisionResult.ok 9 "y"⟩
      cexPoorDb 1 1 "srv" ⟨1, 3, some 100⟩ (by decide) (by decide)).2
    cexPlan (by decide)).2.1 rfl (by decide)

/-- C4: whenever the Provisioning Gateway create-instance call is made during a
purchase and fails, the outcome is `provisioningInstanceFailed` with the
gateway's error and the store is wholly unchanged - no credit debit, no stock
increment, no instance record (the create call is only reached for a user whose
panel account reference already exists, so not even an account linkage is
written). -/
theorem c4_instance_create_failure (parseJson : String → Option (List (String × String)))
    (g : Gateway) (db : DB) (uid : Nat) (plan_id : Option Nat) (name : String) (e : String)
    (hfail : g.createServerResult = ProvisionResult.fail e)
    (hcall : ((purchase parseJson g db uid plan_id name).calls.any
      GatewayCall.isCreateServer) = true) :
    (purchase parseJson g db uid plan_id name).outcome =
      PurchaseOutcome.provisioningInstanceFailed e ∧
    (purchase parseJson g db uid plan_id name).db = db := by
  unfold purchase at hcall ⊢
  rcases hu2 : getUserById db uid with _ | user <;> rw [hu2] at hcall
  · simp at hcall
  rcases plan_id with _ | pid
  · simp at hcall
  dsimp only at hcall ⊢
  by_cases hname : name = ""
  · rw [if_pos hname] at hcall
    simp at hcall
  rw [if_neg hname] at hcall ⊢
  rcases hplan : getPlanById db pid with _ | plan <;> rw [hplan] at hcall
  · simp at hcall
  dsimp only at hcall ⊢
  split_ifs at hcall ⊢ with h1 h2 h3 h4 <;> try simp at hcall
  rcases hpt : user.pterodactyl_id with _ | acct <;> rw [hpt] at hcall
  · rcases hcu : g.createUserResult with _ | _ <;> rw [hcu] at hcall <;>
      simp [GatewayCall.isCreateServer] at hcall
  · rw [hfail] at hcall ⊢
    exact ⟨rfl, rfl⟩

/-- C4 witness: with validations passing, a linked account, and the panel
rejecting the instance creation, the purchase fails with the panel's error and
the store is unchanged. -/
theorem c4_witness :
    (purchase (fun _ => none) ⟨ProvisionResult.fail "x", ProvisionResult.fail "boom"⟩
        cexPurchaseDb 1 (some 1) "s1").outcome =
      PurchaseOutcome.provisioningInstanceFailed "boom" ∧
    (purchase (fun _ => none) ⟨ProvisionResult.fail "x", ProvisionResult.fail "boom"⟩
        cexPurchaseDb 1 (some 1) "s1").db = cexPurchaseDb :=
  c4_instance_create_failure (fun _ => none)
    ⟨ProvisionResult.fail "x", ProvisionResult.fail "boom"⟩
    cexPurchaseDb 1 (some 1) "s1" "boom" rfl (by decide)

/-- C10: when the plan's stored environment-variables field is present but is
not valid JSON, the purchase behaves exactly as if the parser had produced the
empty object: the provisioning request carries an empty environment-variable
map and every other step of the purchase is unaffected. -/
theorem c10_invalid_env_json (parseJson : String → Option (List (String × String)))
    (g : Gateway) (db : DB) (uid : Nat) (pid : Nat) (name : String)
    (plan : Plan) (s : String)
    (hplan : getPlanById db pid = some plan)
    (henv : plan.environment_variables = some s)
    (hbad : parseJson s = none) :
    parseEnvironment parseJson plan.environment_variables = [] ∧
    purchase parseJson g db uid (some pid) name =
      purchase (fun _ => some []) g db uid (some pid) name := by
  have hempty : parseEnvironment parseJson plan.environment_variables = [] := by
    rw [henv]
    simp [parseEnvironment, hbad]
  have hsame : parseEnvironment parseJson plan.environment_variables =
      parseEnvironment (fun _ => some []) plan.environment_variables := by
    rw [hempty, henv]
    simp [parseEnvironment]
  refine ⟨hempty, ?_⟩
  unfold purchase
  cases getUserById db uid with
  | none => rfl
  | some user =>
    simp only [hplan]
    split_ifs
    all_goals try rfl
    cases user.pterodactyl_id with
    | none => rfl
    | some acct =>
      rw [hsame]

/-- C10 witness: a plan storing `"not json"` as its environment variables still
purchases successfully, with an empty environment map sent to the panel. -/
theorem c10_witness :
    parseEnvironment (fun _ => none) cexEnvPlan.environment_variables = [] ∧
    purchase (fun _ => none) ⟨ProvisionResult.ok 7 "x", ProvisionResult.ok 9 "y"⟩
        cexEnvDb 1 (some 2) "srv" =
      purchase (fun _ => some []) ⟨ProvisionResult.ok 7 "x", ProvisionResult.ok 9 "y"⟩
        cexEnvDb 1 (some 2) "srv" :=
  c10_invalid_env_json (fun _ => none) ⟨ProvisionResult.ok 7 "x", ProvisionResult.ok 9 "y"⟩
    cexEnvDb 1 2 "srv" cexEnvPlan "not json" (by decide) (by decide) rfl

/-- C5: a successful purchase with plan price `p` and prior balance `b ≥ p`
leaves the buyer's balance at exactly `b - p`, increments the plan's
`stock_used` by exactly one, and appends exactly one user-server record whose
external identifiers are the ones returned by the panel's create-instance
call. -/
theorem c5_success_effects (parseJson : String → Option (List (String × String)))
    (g : Gateway) (db : DB) (uid pid : Nat) (name : String) (user : User) (plan : Plan)
    (acct sid : Nat) (ident : String)
    (hu : getUserById db uid = some user)
    (hacct : user.pterodactyl_id = some acct)
    (hplan : getPlanById db pid = some plan)
    (hen : plan.enabled = true)
    (hcred : ¬user.credits < plan.price)
    (hul : ¬(0 < plan.user_limit ∧
      plan.user_limit ≤ (getUserServerCount db uid pid : Int)))
    (hsl : ¬(0 < plan.stock_limit ∧ plan.stock_limit ≤ plan.stock_used))
    (hname : name ≠ "")
    (hok : g.createServerResult = ProvisionResult.ok sid ident) :
    (purchase parseJson g db uid (some pid) name).outcome =
      PurchaseOutcome.success sid ident ∧
    getUserById (purchase parseJson g db uid (some pid) name).db uid =
      some { user with credits := user.credits - plan.price } ∧
    getPlanById (purchase parseJson g db uid (some pid) name).db pid =
      some { plan with stock_used := plan.stock_used + 1 } ∧
    (purchase parseJson g db uid (some pid) name).db.userServers =
      db.userServers ++ [⟨uid, pid, sid, name, ident, "active"⟩] := by
  have hid : user.id = uid := getUserById_id hu
  have hres : purchase parseJson g db uid (some pid) name =
      ⟨PurchaseOutcome.success sid ident,
        createUserServer (incrementPlanStock (updateUserCredits db user.id (-plan.price)) pid)
          ⟨user.id, pid, sid, name, ident, "active"⟩,
        [GatewayCall.createServerCall name acct
          (parseEnvironment parseJson plan.environment_variables)]⟩ := by
    rw [← hid] at hul
    simp [purchase, hu, hplan, hname, hen, hcred, hul, hsl, hacct, hok]
  rw [hres]
  refine ⟨rfl, ?_, ?_, ?_⟩
  · show getUserById (updateUserCredits db user.id (-plan.price)) uid = _
    rw [← hid, getUserById_updateUserCredits, hid, hu]
    simp [sub_eq_add_neg, hid]
  · show getPlanById (incrementPlanStock (updateUserCredits db user.id (-plan.price)) pid) pid = _
    rw [getPlanById_incrementPlanStock]
    have husers : getPlanById (updateUserCredits db user.id (-plan.price)) pid =
        getPlanById db pid := rfl
    rw [husers, hplan]
    rfl
  · show db.userServers ++ [(⟨user.id, pid, sid, name, ident, "active"⟩ : UserServer)] = _
    rw [hid]

/-- C5 witness, scenario E: price 5, balance 20 - after the purchase the balance
is 15, `stock_used` rose from 0 to 1, and one record referencing panel instance
11 / identifier `abc` exists. -/
theorem c5_witness :
    (purchase (fun _ => none) ⟨ProvisionResult.fail "x", ProvisionResult.ok 11 "abc"⟩
        cexPurchaseDb 1 (some 1) "s1").outcome = PurchaseOutcome.success 11 "abc" ∧
    getUserById (purchase (fun _ => none)
        ⟨ProvisionResult.fail "x", ProvisionResult.ok 11 "abc"⟩
        cexPurchaseDb 1 (some 1) "s1").db 1 = some ⟨1, (20 : Rat) - 5, some 100⟩ ∧
    getPlanById (purchase (fun _ => none)
        ⟨ProvisionResult.fail "x", ProvisionResult.ok 11 "abc"⟩
        cexPurchaseDb 1 (some 1) "s1").db 1 =
      some { cexPlan with stock_used := cexPlan.stock_used + 1 } ∧
    (purchase (fun _ => none) ⟨ProvisionResult.fail "x", ProvisionResult.ok 11 "abc"⟩
        cexPurchaseDb 1 (some 1) "s1").db.userServers =
      cexPurchaseDb.userServers ++ [⟨1, 1, 11, "s1", "abc", "active"⟩] :=
  c5_success_effects (fun _ => none) ⟨ProvisionResult.fail "x", ProvisionResult.ok 11 "abc"⟩
    cexPurchaseDb 1 1 "s1" ⟨1, 20, some 100⟩ cexPlan 100 11 "abc"
    rfl rfl rfl rfl (by decide) (by decide) (by decide) (by decide) rfl

/-- Effect of one redemption request on the gift-card table: either unchanged,
or the looked-up card passed `uses < max_uses` and every card with its id has
`uses` bumped by one. -/
theorem redeem_giftCards (db : DB) (uid : Nat) (code : String) (now : Int) :
    (redeem db uid code now).2.giftCards = db.giftCards ∨
    ∃ card, getGiftCard db (normalizeCode code) = some card ∧
      card.uses < card.max_uses ∧
      (redeem db uid code now).2.giftCards =
        db.giftCards.map
          (fun c => if c.id == card.id then { c with uses := c.uses + 1 } else c) := by
  unfold redeem
  rcases hu : getUserById db uid with _ | user
  · exact Or.inl rfl
  rcases hc : getGiftCard db (normalizeCode code) with _ | card
  · exact Or.inl rfl
  dsimp only
  split_ifs with h1 h2 h3 h4
  · exact Or.inl rfl
  · exact Or.inl rfl
  · exact Or.inl rfl
  · exact Or.inl rfl
  · exact Or.inr ⟨card, rfl, not_le.mp h3, rfl⟩

/-- A redemption request never changes the set of gift-card ids. -/
theorem redeem_giftCards_ids (db : DB) (uid : Nat) (code : String) (now : Int) :
    (redeem db uid code now).2.giftCards.map GiftCard.id = db.giftCards.map GiftCard.id := by
  rcases redeem_giftCards db uid code now with h | ⟨card, _, _, h⟩
  · rw [h]
  · rw [h, List.map_map]
    apply List.map_congr_left
    intro c _
    by_cases hc : c.id == card.id <;> simp [Function.comp, hc]

/-- C1 amended: with unique card ids, `uses ≤ max_uses` for every card is
preserved by any number of sequential (request-at-a-time) redemption attempts -
each successful commit bumps only a card that passed `uses < max_uses` at
validation time.  (The unconditional increment makes this fail under
interleaving, per the counterexample.) -/
theorem c1_amended (now : Int) (reqs : List (Nat × String)) (db : DB)
    (hids : (db.giftCards.map GiftCard.id).Nodup)
    (hinv : ∀ c ∈ db.giftCards, c.uses ≤ c.max_uses) :
    ∀ c ∈ (runRedeemsSeq now reqs db).giftCards, c.uses ≤ c.max_uses := by
  induction reqs generalizing db with
  | nil => exact hinv
  | cons r t ih =>
    have hstep : ∀ c ∈ (redeem db r.1 r.2 now).2.giftCards, c.uses ≤ c.max_uses := by
      intro c hcmem
      rcases redeem_giftCards db r.1 r.2 now with h | ⟨card, hfind, hlt, h⟩
      · rw [h] at hcmem
        exact hinv c hcmem
      · rw [h] at hcmem
        rcases List.mem_map.mp hcmem with ⟨c0, hc0, rfl⟩
        by_cases hcid : (c0.id == card.id) = true
        · have hmem : card ∈ db.giftCards := getGiftCard_mem hfind
          have hceq : c0 = card :=
            List.inj_on_of_nodup_map hids hc0 hmem (by simpa using hcid)
          subst hceq
          simp only [hcid, if_pos]
          omega
        · rw [if_neg hcid]
          exact hinv c0 hc0
    have hids2 : ((redeem db r.1 r.2 now).2.giftCards.map GiftCard.id).Nodup := by
      rw [redeem_giftCards_ids]
      exact hids
    have hfold : runRedeemsSeq now (r :: t) db =
        runRedeemsSeq now t (redeem db r.1 r.2 now).2 := rfl
    rw [hfold]
    exact ih _ hids2 hstep

/-- C1 amended, witness: two sequential redemptions of the one-use card - the
first succeeds, the second is rejected - leave the card within its cap. -/
theorem c1_amended_witness :
    { cexCard with uses := 1 }.uses ≤ { cexCard with uses := 1 }.max_uses :=
  c1_amended 0 [(1, "SAVE10"), (2, "SAVE10")] cexRedeemDb (by decide) (by decide)
    { cexCard with uses := 1 } (by decide)

/-- Effect of one purchase request on the plan table: either unchanged, or the
plan passed the stock check and every plan with its id has `stock_used` bumped
by one. -/
theorem purchase_plans (parseJson : String → Option (List (String × String)))
    (g : Gateway) (db : DB) (uid : Nat) (plan_id : Option Nat) (name : String) :
    (purchase parseJson g db uid plan_id name).db.plans = db.plans ∨
    ∃ pid plan, plan_id = some pid ∧ getPlanById db pid = some plan ∧
      ¬(0 < plan.stock_limit ∧ plan.stock_limit ≤ plan.stock_used) ∧
      (purchase parseJson g db uid plan_id name).db.plans =
        db.plans.map
          (fun p => if p.id == pid then { p with stock_used := p.stock_used + 1 } else p) := by
  unfold purchase
  rcases hu : getUserById db uid with _ | user
  · exact Or.inl rfl
  rcases plan_id with _ | pid
  · exact Or.inl rfl
  dsimp only
  split_ifs with hname
  · exact Or.inl rfl
  rcases hplan : getPlanById db pid with _ | plan
  · exact Or.inl rfl
  dsimp only
  split_ifs with h1 h2 h3 h4
  · exact Or.inl rfl
  · exact Or.inl rfl
  · exact Or.inl rfl
  · exact Or.inl rfl
  rcases hpt : user.pterodactyl_id with _ | acct
  · rcases hcu : g.createUserResult with _ | _ <;> exact Or.inl rfl
  rcases hcs : g.createServerResult with _ | _
  · exact Or.inr ⟨pid, plan, rfl, hplan, h4, rfl⟩
  · exact Or.inl rfl

/-- A purchase request never changes the set of plan ids. -/
theorem purchase_plans_ids (parseJson : String → Option (List (String × String)))
    (g : Gateway) (db : DB) (uid : Nat) (plan_id : Option Nat) (name : String) :
    (purchase parseJson g db uid plan_id name).db.plans.map Plan.id =
      db.plans.map Plan.id := by
  rcases purchase_plans parseJson g db uid plan_id name with h | ⟨pid, plan, _, _, _, h⟩
  · rw [h]
  · rw [h, List.map_map]
    apply List.map_congr_left
    intro p _
    by_cases hp : p.id == pid <;> simp [Function.comp, hp]

/-- C3 amended: with unique plan ids, `stock_used ≤ stock_limit` for every plan
with `stock_limit > 0` is preserved by any number of sequential purchase
attempts - each successful commit bumps only a plan that passed the stock check
at validation time.  (The unconditional increment makes this fail under
interleaving, per the counterexample.) -/
theorem c3_amended (parseJson : String → Option (List (String × String)))
    (reqs : List PReq) (db : DB)
    (hids : (db.plans.map Plan.id).Nodup)
    (hinv : ∀ p ∈ db.plans, 0 < p.stock_limit → p.stock_used ≤ p.stock_limit) :
    ∀ p ∈ (runPurchasesSeq parseJson reqs db).plans,
      0 < p.stock_limit → p.stock_used ≤ p.stock_limit := by
  induction reqs generalizing db with
  | nil => exact hinv
  | cons r t ih =>
    set db2 := (purchase parseJson r.gateway db r.userId r.plan_id r.server_name).db with hdb2
    have hstep : ∀ p ∈ db2.plans, 0 < p.stock_limit → p.stock_used ≤ p.stock_limit := by
      intro p hpmem
      rcases purchase_plans parseJson r.gateway db r.userId r.plan_id r.server_name with
        h | ⟨pid, plan, _, hfind, hguard, h⟩
      · rw [hdb2, h] at hpmem
        exact hinv p hpmem
      · rw [hdb2, h] at hpmem
        rcases List.mem_map.mp hpmem with ⟨p0, hp0, rfl⟩
        by_cases hpid : (p0.id == pid) = true
        · have hplanid : plan.id = pid := getPlanById_id hfind
          have hmem : plan ∈ db.plans := getPlanById_mem hfind
          have hpeq : p0 = plan :=
            List.inj_on_of_nodup_map hids hp0 hmem
              (by rw [hplanid]; simpa using hpid)
          subst hpeq
          simp only [hpid, if_pos]
          intro hpos
          have := hinv p0 hp0
          omega
        · rw [if_neg hpid]
          exact hinv p0 hp0
    have hids2 : (db2.plans.map Plan.id).Nodup := by
      rw [hdb2, purchase_plans_ids]
      exact hids
    have hfold : runPurchasesSeq parseJson (r :: t) db = runPurchasesSeq parseJson t db2 := rfl
    rw [hfold]
    exact ih db2 hids2 hstep

/-- C3 amended, witness: two sequential purchases against the one-unit plan -
the first succeeds, the second is out of stock - leave the counter at its cap. -/
theorem c3_amended_witness :
    { cexPlan with stock_used := 1 }.stock_used ≤ { cexPlan with stock_used := 1 }.stock_limit :=
  c3_amended (fun _ => none)
    [⟨1, some 1, "s1", ⟨ProvisionResult.fail "x", ProvisionResult.ok 11 "abc"⟩⟩,
     ⟨2, some 1, "s2", ⟨ProvisionResult.fail "x", ProvisionResult.ok 12 "defg"⟩⟩]
    cexPurchaseDb (by decide) (by decide)
    { cexPlan with stock_used := 1 } (by decide) (by decide)

/-- C8 amended, witness: a code absent from the store yields `invalidCode`. -/
theorem c8_amended_witness :
    (getGiftCard cexRedeemDb (normalizeCode "BOGUS") = none →
      redeem cexRedeemDb 1 "BOGUS" 0 = (RedeemOutcome.invalidCode, cexRedeemDb)) ∧
    (∀ card, getGiftCard cexRedeemDb (normalizeCode "BOGUS") = some card →
      (redeem cexRedeemDb 1 "BOGUS" 0).1 ≠ RedeemOutcome.invalidCode) :=
  c8_amended cexRedeemDb 1 "BOGUS" 0 ⟨1, 0, none⟩ (by decide)

end Cosmica
